import Mathlib

/-
Shallow embedding of the print-layout editor in `src/PrintCanvas.js`
(component `PrintCanvas` together with its `App.js` host).

Coordinates and sizes are JavaScript numbers; the code only performs
field arithmetic (division, multiplication, `Math.min`, halving), which we
model exactly over `ℚ`.  Integer quantities (ids, grid rows/columns,
list indices) are `Nat`; `Math.floor(a / b)` and `a % b` on non-negative
integers are `Nat.div` and `Nat.mod`.

The React component state
  `images, texts, selectedImage, selectedText, printMode, gridSize, contextMenu`
becomes an explicit `CanvasState` record, and every event handler becomes a
pure state transformer.  React closure semantics matter in one place:
`handleFileUpload` first calls `setImages([])` and only later, inside the
`img.onload` callback, reads `images.length`; that read sees the list as it
was when the handler ran (the render-time closure value), i.e. the list
*before* the clear, while the final list is the cleared list with the single
new image appended.  The embedding reproduces exactly that.
-/

namespace PrintingTools

/-- Grid cell assignment of a placed image (`gridPos` in the source). -/
structure GridPos where
  row : Nat
  col : Nat
deriving DecidableEq

/-- The `gridSize` state: rows × cols of the PECS grid. -/
structure GridSize where
  rows : Nat
  cols : Nat
deriving DecidableEq

/-- The `printMode` state: "Scaled Print" or "PECS" (grid). -/
inductive PrintMode
  | scaledPrint
  | pecs
deriving DecidableEq

/-- A placed image object as built in `handleFileUpload`.  The decoded
bitmap handle `src` is reduced to its only observable attributes, the
source pixel dimensions `srcWidth`/`srcHeight`. -/
structure PlacedImage where
  id : Nat
  srcWidth : ℚ
  srcHeight : ℚ
  x : ℚ
  y : ℚ
  width : ℚ
  height : ℚ
  gridPos : GridPos
deriving DecidableEq

/-- A text element object as built in `addText`. -/
structure TextItem where
  id : Nat
  x : ℚ
  y : ℚ
  text : String
  width : ℚ
  rotation : ℚ
deriving DecidableEq

/-- The `contextMenu` state when open: client coordinates of the menu. -/
structure MenuPos where
  x : ℚ
  y : ℚ
deriving DecidableEq

/-- Third argument of `handleContextMenu`: which kind of node was
right-clicked. -/
inductive TargetKind
  | image
  | text
deriving DecidableEq

/-- The full React state of the `PrintCanvas` component. -/
structure CanvasState where
  images : List PlacedImage
  texts : List TextItem
  selectedImage : Option Nat
  selectedText : Option Nat
  printMode : PrintMode
  gridSize : GridSize
  contextMenu : Option MenuPos
deriving DecidableEq

/-- Page size prop of `PrintCanvas`, chosen in `App.js`. -/
inductive PageSize
  | A4
  | A3
deriving DecidableEq

/-- Orientation prop of `PrintCanvas`, chosen in `App.js`. -/
inductive Orientation
  | portrait
  | landscape
deriving DecidableEq

/-- `PAGE_SIZES` table: (width, height) in millimetres. -/
def pageSizes : PageSize → ℚ × ℚ
  | PageSize.A4 => (210, 297)
  | PageSize.A3 => (297, 420)

/-- `canvasDimensions`: base dimensions, swapped unless portrait. -/
def canvasDimensions (p : PageSize) (o : Orientation) : ℚ × ℚ :=
  let base := pageSizes p
  match o with
  | Orientation.portrait => (base.1, base.2)
  | Orientation.landscape => (base.2, base.1)

/-- `cellWidth = canvasDimensions.width / gridSize.cols`. -/
def cellWidth (dims : ℚ × ℚ) (g : GridSize) : ℚ :=
  dims.1 / (g.cols : ℚ)

/-- `cellHeight = canvasDimensions.height / gridSize.rows`. -/
def cellHeight (dims : ℚ × ℚ) (g : GridSize) : ℚ :=
  dims.2 / (g.rows : ℚ)

/-- The `scale` computed in `handleFileUpload` for an image of source size
`iw × ih`: fit-to-page in Scaled Print mode, fit-to-cell in PECS mode. -/
def uploadScale (dims : ℚ × ℚ) (s : CanvasState) (iw ih : ℚ) : ℚ :=
  if s.printMode = PrintMode.scaledPrint then
    min (dims.1 / iw) (dims.2 / ih)
  else
    min (cellWidth dims s.gridSize / iw) (cellHeight dims s.gridSize / ih)

/-- The `newImage` object built in `handleFileUpload`.  Per React closure
semantics, `images.length` here is the length of the image list as of the
render in which the upload handler was created, i.e. before the
`setImages([])` clear. -/
def newPlacedImage (dims : ℚ × ℚ) (s : CanvasState) (iw ih : ℚ) : PlacedImage :=
  let scale := uploadScale dims s iw ih
  let width := iw * scale
  let height := ih * scale
  { id := s.images.length
    srcWidth := iw
    srcHeight := ih
    x := if s.printMode = PrintMode.scaledPrint then (dims.1 - width) / 2
         else (cellWidth dims s.gridSize - width) / 2
    y := if s.printMode = PrintMode.scaledPrint then (dims.2 - height) / 2
         else (cellHeight dims s.gridSize - height) / 2
    width := width
    height := height
    gridPos := { row := s.images.length / s.gridSize.cols
                 col := s.images.length % s.gridSize.cols } }

/-- `handleFileUpload` for a decoded image of source size `iw × ih`:
`setImages([])` runs first, then `setImages(prev => [...prev, newImage])`
appends to the cleared list, so the resulting list is exactly
`[newPlacedImage dims s iw ih]`. -/
def handleFileUpload (dims : ℚ × ℚ) (s : CanvasState) (iw ih : ℚ) : CanvasState :=
  { s with images := [newPlacedImage dims s iw ih] }

/-- `handleSelectImage`. -/
def handleSelectImage (s : CanvasState) (id : Nat) : CanvasState :=
  { s with selectedImage := some id, selectedText := none }

/-- `handleSelectText`. -/
def handleSelectText (s : CanvasState) (id : Nat) : CanvasState :=
  { s with selectedText := some id, selectedImage := none }

/-- `deleteSelectedImage`: keeps images whose `id !== selectedImage`
(when `selectedImage` is null the strict inequality holds for every image),
clears the image selection, closes the context menu. -/
def deleteSelectedImage (s : CanvasState) : CanvasState :=
  { s with images := s.images.filter (fun img => !(some img.id == s.selectedImage))
           selectedImage := none
           contextMenu := none }

/-- `deleteSelectedText`. -/
def deleteSelectedText (s : CanvasState) : CanvasState :=
  { s with texts := s.texts.filter (fun txt => !(some txt.id == s.selectedText))
           selectedText := none
           contextMenu := none }

/-- `zoomInImage`: multiplies the selected image's width and height by 1.2
(= 6/5), leaves every other image alone, closes the context menu. -/
def zoomInImage (s : CanvasState) : CanvasState :=
  { s with images := s.images.map (fun img =>
             if some img.id = s.selectedImage then
               { img with width := img.width * (6 / 5), height := img.height * (6 / 5) }
             else img)
           contextMenu := none }

/-- `zoomOutImage`: multiplies the selected image's width and height by 0.8
(= 4/5), leaves every other image alone, closes the context menu. -/
def zoomOutImage (s : CanvasState) : CanvasState :=
  { s with images := s.images.map (fun img =>
             if some img.id = s.selectedImage then
               { img with width := img.width * (4 / 5), height := img.height * (4 / 5) }
             else img)
           contextMenu := none }

/-- `addText`: if an image id is selected, looks it up with
`images.find(...)` and appends a new text anchored 10 units below-right of
the image, then closes the context menu.  If the selected id has no image
(`find` returns `undefined`), reading `image.x` throws before any state
update, so the state is unchanged.  With no selection, only the
`setContextMenu(null)` after the `if` runs. -/
def addText (s : CanvasState) : CanvasState :=
  match s.selectedImage with
  | none => { s with contextMenu := none }
  | some sel =>
    match s.images.find? (fun img => img.id == sel) with
    | none => s
    | some image =>
      { s with texts := s.texts ++
                  [{ id := s.texts.length
                     x := image.x + 10
                     y := image.y + 10
                     text := "Sample Text"
                     width := 100
                     rotation := 0 }]
               contextMenu := none }

/-- `handleTextChange` as invoked from `onDragEnd`: new `x` and `y` only. -/
def handleTextDragEnd (s : CanvasState) (id : Nat) (nx ny : ℚ) : CanvasState :=
  { s with texts := s.texts.map (fun txt =>
      if txt.id = id then { txt with x := nx, y := ny } else txt) }

/-- `handleTextChange` as invoked from `onTransformEnd`: new `x`, `y`,
`rotation` and `width`. -/
def handleTextTransformEnd (s : CanvasState) (id : Nat) (nx ny rot w : ℚ) : CanvasState :=
  { s with texts := s.texts.map (fun txt =>
      if txt.id = id then { txt with x := nx, y := ny, rotation := rot, width := w } else txt) }

/-- `handleTextEdit`: replaces the text string of the text with this id. -/
def handleTextEdit (s : CanvasState) (id : Nat) (newText : String) : CanvasState :=
  { s with texts := s.texts.map (fun txt =>
      if txt.id = id then { txt with text := newText } else txt) }

/-- `handleContextMenu`: selects the right-clicked node (clearing the other
selection) and opens the menu at the client coordinates. -/
def handleContextMenu (s : CanvasState) (cx cy : ℚ) (id : Nat) : TargetKind → CanvasState
  | TargetKind.image =>
    { s with selectedImage := some id, selectedText := none
             contextMenu := some { x := cx, y := cy } }
  | TargetKind.text =>
    { s with selectedText := some id, selectedImage := none
             contextMenu := some { x := cx, y := cy } }

/-- `handleStageClick` in the case `e.target === e.target.getStage()`
(a click on empty canvas; clicks on shapes are separate events). -/
def handleStageClick (s : CanvasState) : CanvasState :=
  { s with selectedImage := none, selectedText := none, contextMenu := none }

/-- The state effect of `handlePrint`: both selections are cleared before
the deferred raster capture (the capture itself is rendering, not state). -/
def handlePrint (s : CanvasState) : CanvasState :=
  { s with selectedImage := none, selectedText := none }

/-- `handlePrintModeChange`: sets the mode and clears both entity lists. -/
def handlePrintModeChange (s : CanvasState) (m : PrintMode) : CanvasState :=
  { s with printMode := m, images := [], texts := [] }

/-- Columns input: `setGridSize({ ...gridSize, cols })`. -/
def setCols (s : CanvasState) (n : Nat) : CanvasState :=
  { s with gridSize := { s.gridSize with cols := n } }

/-- Rows input: `setGridSize({ ...gridSize, rows })`. -/
def setRows (s : CanvasState) (n : Nat) : CanvasState :=
  { s with gridSize := { s.gridSize with rows := n } }

/-- The `onChange`/`onDragEnd` path of `ClippedImage`: entry `i` of the
image list is replaced by the same image at the drag-end position. -/
def moveImage (s : CanvasState) (i : Nat) (nx ny : ℚ) : CanvasState :=
  match s.images.get? i with
  | none => s
  | some img => { s with images := s.images.set i { img with x := nx, y := ny } }

/-- On-page position at which `ClippedImage` renders an image: the Konva
`Group` sits at the cell origin in PECS mode (`clipToCell`) and at the page
origin otherwise, and the inner `Image` node is offset by the stored
`(x, y)` relative to the group. -/
def renderedPos (clipToCell : Bool) (cw ch : ℚ) (img : PlacedImage) : ℚ × ℚ :=
  ((if clipToCell then (img.gridPos.col : ℚ) * cw else 0) + img.x,
   (if clipToCell then (img.gridPos.row : ℚ) * ch else 0) + img.y)

/-- User-level events of one editing session, each mapped to the handler
the UI wires it to.  A click on a text node fires the Konva `Text`'s own
`onClick` (`setSelectedText`) and then bubbles to the enclosing `Group`'s
`onClick` (`handleSelectText`); the composite effect equals
`handleSelectText`, which is how `clickText` is modelled. -/
inductive Event
  | fileUpload (dims : ℚ × ℚ) (iw ih : ℚ)
  | clickImage (id : Nat)
  | clickText (id : Nat)
  | imageDragEnd (i : Nat) (nx ny : ℚ)
  | textDragEnd (id : Nat) (nx ny : ℚ)
  | textTransformEnd (id : Nat) (nx ny rot w : ℚ)
  | textDblClick (id : Nat) (t : String)
  | menuDelete
  | menuDeleteText
  | menuZoomIn
  | menuZoomOut
  | menuAddText
  | rightClick (cx cy : ℚ) (id : Nat) (kind : TargetKind)
  | stageClick
  | printClick
  | modeChange (m : PrintMode)
  | colsInput (n : Nat)
  | rowsInput (n : Nat)

/-- Dispatch of one event to its handler. -/
def step (s : CanvasState) : Event → CanvasState
  | Event.fileUpload dims iw ih => handleFileUpload dims s iw ih
  | Event.clickImage id => handleSelectImage s id
  | Event.clickText id => handleSelectText s id
  | Event.imageDragEnd i nx ny => moveImage s i nx ny
  | Event.textDragEnd id nx ny => handleTextDragEnd s id nx ny
  | Event.textTransformEnd id nx ny rot w => handleTextTransformEnd s id nx ny rot w
  | Event.textDblClick id t => handleTextEdit s id t
  | Event.menuDelete => deleteSelectedImage s
  | Event.menuDeleteText => deleteSelectedText s
  | Event.menuZoomIn => zoomInImage s
  | Event.menuZoomOut => zoomOutImage s
  | Event.menuAddText => addText s
  | Event.rightClick cx cy id kind => handleContextMenu s cx cy id kind
  | Event.stageClick => handleStageClick s
  | Event.printClick => handlePrint s
  | Event.modeChange m => handlePrintModeChange s m
  | Event.colsInput n => setCols s n
  | Event.rowsInput n => setRows s n

/-- Runs a list of events in order. -/
def run (s : CanvasState) : List Event → CanvasState
  | [] => s
  | e :: es => run (step s e) es

/-- The initial `useState` values of `PrintCanvas`. -/
def initialState : CanvasState :=
  { images := []
    texts := []
    selectedImage := none
    selectedText := none
    printMode := PrintMode.scaledPrint
    gridSize := { rows := 3, cols := 4 }
    contextMenu := none }

/-- `initialState` after switching the mode selector to PECS. -/
def pecsState : CanvasState :=
  handlePrintModeChange initialState PrintMode.pecs

/-- At most one of the two selections is set. -/
def atMostOneSelection (s : CanvasState) : Prop :=
  s.selectedImage = none ∨ s.selectedText = none

/-- The upload event used in the three-uploads scenarios: a 50×50 source
image on an A4 portrait page. -/
def uploadA4Square : Event :=
  Event.fileUpload (210, 297) 50 50

/-- Claim C1 (counterexample).  In PECS mode with the initial 3×4 grid
(cols = 4), after three completed uploads the surviving image's `gridPos`
is (0, 1), not the (0, 2) the claim derives for the third upload: each
upload clears the list, so the length read by the next upload's closure is
1, never 2. -/
theorem third_upload_gridPos_is_0_1_not_0_2 :
    ((run initialState
        [Event.modeChange PrintMode.pecs, uploadA4Square, uploadA4Square, uploadA4Square]).images.map
      (fun i => i.gridPos)) = [{ row := 0, col := 1 }] ∧
    ({ row := 0, col := 1 } : GridPos) ≠ { row := 0, col := 2 } := by
  constructor
  · decide
  · decide

/-- Claim C1 (amended).  Every upload assigns
`gridPos = (idx / cols, idx % cols)` where `idx` is the length of the
image list as captured when the upload handler ran, i.e. before the
handler clears the list; since every completed upload leaves exactly one
image, the third upload in PECS mode with cols = 4 yields gridPos (0, 1). -/
theorem upload_gridPos_from_preclear_index (dims : ℚ × ℚ) (s : CanvasState) (iw ih : ℚ) :
    ((handleFileUpload dims s iw ih).images.map (fun i => i.gridPos)) =
      [{ row := s.images.length / s.gridSize.cols
         col := s.images.length % s.gridSize.cols }] ∧
    ((run initialState
        [Event.modeChange PrintMode.pecs, uploadA4Square, uploadA4Square, uploadA4Square]).images.map
      (fun i => i.gridPos)) = [{ row := 0, col := 1 }] := by
  constructor
  · rfl
  · decide

/-- Claim C2 (confirmed).  Every completed upload leaves the image list
with exactly one element, the newly placed image, whatever was there
before: the handler clears the list and the deferred append lands on the
cleared list. -/
theorem upload_replaces_with_single_image (dims : ℚ × ℚ) (s : CanvasState) (iw ih : ℚ) :
    (handleFileUpload dims s iw ih).images.length = 1 ∧
    (handleFileUpload dims s iw ih).images = [newPlacedImage dims s iw ih] :=
  ⟨rfl, rfl⟩

/-- Claim C3 (confirmed).  In Scaled mode the upload scale is
`min(pageWidth/imgWidth, pageHeight/imgHeight)`, the placed size keeps the
source aspect ratio (`width · ih = height · iw`), and the image is centered
on the page; concretely a 1000×500 image on A4 portrait lands at
width 210, height 105, x 0, y 96. -/
theorem scaled_upload_centered (pw ph : ℚ) (s : CanvasState) (iw ih : ℚ)
    (hm : s.printMode = PrintMode.scaledPrint) :
    (newPlacedImage (pw, ph) s iw ih).width = iw * min (pw / iw) (ph / ih) ∧
    (newPlacedImage (pw, ph) s iw ih).height = ih * min (pw / iw) (ph / ih) ∧
    (newPlacedImage (pw, ph) s iw ih).width * ih
      = (newPlacedImage (pw, ph) s iw ih).height * iw ∧
    (newPlacedImage (pw, ph) s iw ih).x
      = (pw - (newPlacedImage (pw, ph) s iw ih).width) / 2 ∧
    (newPlacedImage (pw, ph) s iw ih).y
      = (ph - (newPlacedImage (pw, ph) s iw ih).height) / 2 ∧
    (newPlacedImage (210, 297) initialState 1000 500).width = 210 ∧
    (newPlacedImage (210, 297) initialState 1000 500).height = 105 ∧
    (newPlacedImage (210, 297) initialState 1000 500).x = 0 ∧
    (newPlacedImage (210, 297) initialState 1000 500).y = 96 := by
  refine ⟨?_, ?_, ?_, ?_, ?_,
    by norm_num [newPlacedImage, uploadScale, initialState, min_def],
    by norm_num [newPlacedImage, uploadScale, initialState, min_def],
    by norm_num [newPlacedImage, uploadScale, initialState, min_def],
    by norm_num [newPlacedImage, uploadScale, initialState, min_def]⟩
  · simp [newPlacedImage, uploadScale, hm]
  · simp [newPlacedImage, uploadScale, hm]
  · simp only [newPlacedImage, uploadScale, hm, if_pos]
    ring
  · simp [newPlacedImage, uploadScale, hm]
  · simp [newPlacedImage, uploadScale, hm]

/-- Witness for `scaled_upload_centered` at A4 portrait, image 1000×500,
from the fresh state (whose mode is Scaled Print). -/
theorem scaled_upload_centered_witness :
    initialState.printMode = PrintMode.scaledPrint ∧
    ((newPlacedImage (210, 297) initialState 1000 500).width
        = 1000 * min ((210 : ℚ) / 1000) ((297 : ℚ) / 500) ∧
      (newPlacedImage (210, 297) initialState 1000 500).height
        = 500 * min ((210 : ℚ) / 1000) ((297 : ℚ) / 500) ∧
      (newPlacedImage (210, 297) initialState 1000 500).width * 500
        = (newPlacedImage (210, 297) initialState 1000 500).height * 1000 ∧
      (newPlacedImage (210, 297) initialState 1000 500).x
        = (210 - (newPlacedImage (210, 297) initialState 1000 500).width) / 2 ∧
      (newPlacedImage (210, 297) initialState 1000 500).y
        = (297 - (newPlacedImage (210, 297) initialState 1000 500).height) / 2 ∧
      (newPlacedImage (210, 297) initialState 1000 500).width = 210 ∧
      (newPlacedImage (210, 297) initialState 1000 500).height = 105 ∧
      (newPlacedImage (210, 297) initialState 1000 500).x = 0 ∧
      (newPlacedImage (210, 297) initialState 1000 500).y = 96) :=
  ⟨rfl, scaled_upload_centered 210 297 initialState 1000 500 rfl⟩

/-- Claim C5 (confirmed).  Switching the print mode always empties both
the image list and the text list, from any prior state. -/
theorem modeChange_clears_lists (s : CanvasState) (m : PrintMode) :
    (handlePrintModeChange s m).images = [] ∧ (handlePrintModeChange s m).texts = [] :=
  ⟨rfl, rfl⟩

/-- Claim C4 (confirmed).  In PECS mode the placed size fits the cell
(`width ≤ cellWidth`, `height ≤ cellHeight`, with equality on at least one
axis), and the rendered image is centered within the cell named by its
`gridPos`: the rendered center coincides with the cell center on both
axes. -/
theorem grid_upload_fits_and_centered (pw ph : ℚ) (s : CanvasState) (iw ih : ℚ)
    (hm : s.printMode = PrintMode.pecs) (hiw : 0 < iw) (hih : 0 < ih) :
    (newPlacedImage (pw, ph) s iw ih).width ≤ cellWidth (pw, ph) s.gridSize ∧
    (newPlacedImage (pw, ph) s iw ih).height ≤ cellHeight (pw, ph) s.gridSize ∧
    ((newPlacedImage (pw, ph) s iw ih).width = cellWidth (pw, ph) s.gridSize ∨
      (newPlacedImage (pw, ph) s iw ih).height = cellHeight (pw, ph) s.gridSize) ∧
    (renderedPos true (cellWidth (pw, ph) s.gridSize) (cellHeight (pw, ph) s.gridSize)
        (newPlacedImage (pw, ph) s iw ih)).1 + (newPlacedImage (pw, ph) s iw ih).width / 2
      = ((newPlacedImage (pw, ph) s iw ih).gridPos.col : ℚ) * cellWidth (pw, ph) s.gridSize
        + cellWidth (pw, ph) s.gridSize / 2 ∧
    (renderedPos true (cellWidth (pw, ph) s.gridSize) (cellHeight (pw, ph) s.gridSize)
        (newPlacedImage (pw, ph) s iw ih)).2 + (newPlacedImage (pw, ph) s iw ih).height / 2
      = ((newPlacedImage (pw, ph) s iw ih).gridPos.row : ℚ) * cellHeight (pw, ph) s.gridSize
        + cellHeight (pw, ph) s.gridSize / 2 := by
  have hiw' : iw ≠ 0 := ne_of_gt hiw
  have hih' : ih ≠ 0 := ne_of_gt hih
  have hw : (newPlacedImage (pw, ph) s iw ih).width
      = iw * min (cellWidth (pw, ph) s.gridSize / iw) (cellHeight (pw, ph) s.gridSize / ih) := by
    simp [newPlacedImage, uploadScale, hm]
  have hh : (newPlacedImage (pw, ph) s iw ih).height
      = ih * min (cellWidth (pw, ph) s.gridSize / iw) (cellHeight (pw, ph) s.gridSize / ih) := by
    simp [newPlacedImage, uploadScale, hm]
  have hcw : iw * (cellWidth (pw, ph) s.gridSize / iw) = cellWidth (pw, ph) s.gridSize := by
    field_simp
  have hch : ih * (cellHeight (pw, ph) s.gridSize / ih) = cellHeight (pw, ph) s.gridSize := by
    field_simp
  refine ⟨?_, ?_, ?_, ?_, ?_⟩
  · rw [hw]
    exact le_trans (mul_le_mul_of_nonneg_left (min_le_left _ _) hiw.le) (le_of_eq hcw)
  · rw [hh]
    exact le_trans (mul_le_mul_of_nonneg_left (min_le_right _ _) hih.le) (le_of_eq hch)
  · rcases le_total (cellWidth (pw, ph) s.gridSize / iw) (cellHeight (pw, ph) s.gridSize / ih)
      with hle | hle
    · exact Or.inl (by rw [hw, min_eq_left hle, hcw])
    · exact Or.inr (by rw [hh, min_eq_right hle, hch])
  · simp only [renderedPos, if_pos, hw]
    simp [newPlacedImage, uploadScale, hm]
    ring
  · simp only [renderedPos, if_pos, hh]
    simp [newPlacedImage, uploadScale, hm]
    ring

/-- Witness for `grid_upload_fits_and_centered`: a 100×100 image on A4
portrait in PECS mode with the initial 3×4 grid. -/
theorem grid_upload_fits_and_centered_witness :
    pecsState.printMode = PrintMode.pecs ∧ (0 : ℚ) < 100 ∧
    ((newPlacedImage (210, 297) pecsState 100 100).width
        ≤ cellWidth (210, 297) pecsState.gridSize ∧
      (newPlacedImage (210, 297) pecsState 100 100).height
        ≤ cellHeight (210, 297) pecsState.gridSize ∧
      ((newPlacedImage (210, 297) pecsState 100 100).width
          = cellWidth (210, 297) pecsState.gridSize ∨
        (newPlacedImage (210, 297) pecsState 100 100).height
          = cellHeight (210, 297) pecsState.gridSize) ∧
      (renderedPos true (cellWidth (210, 297) pecsState.gridSize)
          (cellHeight (210, 297) pecsState.gridSize)
          (newPlacedImage (210, 297) pecsState 100 100)).1
          + (newPlacedImage (210, 297) pecsState 100 100).width / 2
        = ((newPlacedImage (210, 297) pecsState 100 100).gridPos.col : ℚ)
            * cellWidth (210, 297) pecsState.gridSize
          + cellWidth (210, 297) pecsState.gridSize / 2 ∧
      (renderedPos true (cellWidth (210, 297) pecsState.gridSize)
          (cellHeight (210, 297) pecsState.gridSize)
          (newPlacedImage (210, 297) pecsState 100 100)).2
          + (newPlacedImage (210, 297) pecsState 100 100).height / 2
        = ((newPlacedImage (210, 297) pecsState 100 100).gridPos.row : ℚ)
            * cellHeight (210, 297) pecsState.gridSize
          + cellHeight (210, 297) pecsState.gridSize / 2) :=
  ⟨rfl, by norm_num,
   grid_upload_fits_and_centered 210 297 pecsState 100 100 rfl (by norm_num) (by norm_num)⟩

/-- Claim C10 (confirmed).  In PECS mode the stored `(x, y)` are
cell-relative (`x = (cellWidth - width)/2`, `y` analogous); the on-page
rendered position adds the cell origin
(`gridPos.col·cellWidth, gridPos.row·cellHeight`); with clipping off
(Scaled mode) the rendered position is the stored `(x, y)` itself. -/
theorem grid_coords_cell_relative (pw ph : ℚ) (s : CanvasState) (iw ih : ℚ)
    (hm : s.printMode = PrintMode.pecs) :
    (newPlacedImage (pw, ph) s iw ih).x
      = (cellWidth (pw, ph) s.gridSize - (newPlacedImage (pw, ph) s iw ih).width) / 2 ∧
    (newPlacedImage (pw, ph) s iw ih).y
      = (cellHeight (pw, ph) s.gridSize - (newPlacedImage (pw, ph) s iw ih).height) / 2 ∧
    (∀ (img : PlacedImage) (cw ch : ℚ),
      renderedPos true cw ch img
        = ((img.gridPos.col : ℚ) * cw + img.x, (img.gridPos.row : ℚ) * ch + img.y)) ∧
    (∀ (img : PlacedImage) (cw ch : ℚ), renderedPos false cw ch img = (img.x, img.y)) := by
  refine ⟨?_, ?_, ?_, ?_⟩
  · simp [newPlacedImage, uploadScale, hm]
  · simp [newPlacedImage, uploadScale, hm]
  · intro img cw ch
    simp [renderedPos]
  · intro img cw ch
    simp [renderedPos]

/-- Witness for `grid_coords_cell_relative`: a 100×100 image on A4
portrait in PECS mode with the initial 3×4 grid. -/
theorem grid_coords_cell_relative_witness :
    pecsState.printMode = PrintMode.pecs ∧
    ((newPlacedImage (210, 297) pecsState 100 100).x
        = (cellWidth (210, 297) pecsState.gridSize
            - (newPlacedImage (210, 297) pecsState 100 100).width) / 2 ∧
      (newPlacedImage (210, 297) pecsState 100 100).y
        = (cellHeight (210, 297) pecsState.gridSize
            - (newPlacedImage (210, 297) pecsState 100 100).height) / 2 ∧
      (∀ (img : PlacedImage) (cw ch : ℚ),
        renderedPos true cw ch img
          = ((img.gridPos.col : ℚ) * cw + img.x, (img.gridPos.row : ℚ) * ch + img.y)) ∧
      (∀ (img : PlacedImage) (cw ch : ℚ), renderedPos false cw ch img = (img.x, img.y))) :=
  ⟨rfl, grid_coords_cell_relative 210 297 pecsState 100 100 rfl⟩

/-- Event sequence reaching a text list with ids [1, 2] while an image
with id 0 is selected: upload an image, select it, add three texts
(ids 0, 1, 2), select and delete text 0, re-select the image. -/
def deletionScenario : List Event :=
  [Event.fileUpload (210, 297) 100 100,
   Event.clickImage 0,
   Event.menuAddText,
   Event.menuAddText,
   Event.menuAddText,
   Event.clickText 0,
   Event.menuDeleteText,
   Event.clickImage 0]

/-- Claim C6 (counterexample).  After deleting the text with id 0 from a
three-text list, the text list holds ids [1, 2] and has length 2, so the
next `addText` assigns the new text id 2 — a duplicate of an id already in
the list at the moment of creation. -/
theorem addText_duplicate_id_after_deletion :
    ((run initialState deletionScenario).texts.map (fun t => t.id)) = [1, 2] ∧
    ((step (run initialState deletionScenario) Event.menuAddText).texts.map
      (fun t => t.id)) = [1, 2, 2] := by
  constructor
  · decide
  · decide

/-- Claim C6 (amended).  A new PlacedImage's id is always unique in its
list, because the upload leaves a one-element list; a new TextItem's id
(the current list length) is distinct from every id already in the list
provided all present ids are below the list length — which holds until a
deletion removes an element whose id is below the ids of later elements,
and can fail afterwards. -/
theorem creation_ids_fresh_without_prior_deletion (s : CanvasState) (sel : Nat)
    (img : PlacedImage)
    (hids : ∀ t ∈ s.texts, t.id < s.texts.length)
    (hsel : s.selectedImage = some sel)
    (hfind : s.images.find? (fun i => i.id == sel) = some img) :
    (∀ (dims : ℚ × ℚ) (iw ih : ℚ),
      ((handleFileUpload dims s iw ih).images.map (fun i => i.id)).Nodup) ∧
    (∃ nt : TextItem, (addText s).texts = s.texts ++ [nt] ∧
      nt.id = s.texts.length ∧ ∀ t ∈ s.texts, t.id ≠ nt.id) := by
  constructor
  · intro dims iw ih
    simp [handleFileUpload]
  · refine ⟨{ id := s.texts.length, x := img.x + 10, y := img.y + 10,
              text := "Sample Text", width := 100, rotation := 0 }, ?_, rfl, ?_⟩
    · simp [addText, hsel, hfind]
    · intro t ht
      exact Nat.ne_of_lt (hids t ht)

/-- A concrete placed image used by witness states. -/
def demoImage : PlacedImage :=
  { id := 0, srcWidth := 10, srcHeight := 10, x := 1, y := 2,
    width := 30, height := 40, gridPos := { row := 0, col := 0 } }

/-- A state holding `demoImage` (selected) and one text with id 0. -/
def freshIdState : CanvasState :=
  { initialState with
      images := [demoImage]
      texts := [{ id := 0, x := 0, y := 0, text := "t", width := 100, rotation := 0 }]
      selectedImage := some 0 }

/-- Witness for `creation_ids_fresh_without_prior_deletion` on
`freshIdState`. -/
theorem creation_ids_fresh_without_prior_deletion_witness :
    (∀ t ∈ freshIdState.texts, t.id < freshIdState.texts.length) ∧
    freshIdState.selectedImage = some 0 ∧
    freshIdState.images.find? (fun i => i.id == 0) = some demoImage ∧
    ((∀ (dims : ℚ × ℚ) (iw ih : ℚ),
        ((handleFileUpload dims freshIdState iw ih).images.map (fun i => i.id)).Nodup) ∧
      (∃ nt : TextItem, (addText freshIdState).texts = freshIdState.texts ++ [nt] ∧
        nt.id = freshIdState.texts.length ∧ ∀ t ∈ freshIdState.texts, t.id ≠ nt.id)) :=
  ⟨by decide, rfl, rfl,
   creation_ids_fresh_without_prior_deletion freshIdState 0 demoImage (by decide) rfl rfl⟩

/-- Claim C7 (confirmed).  Zoom-in multiplies the selected image's width
and height by exactly 6/5 (= 1.2) and zoom-out by 4/5 (= 0.8), leaving its
x, y, id, gridPos and source size untouched; any image whose id is not the
selected one is entirely unchanged, and the list length never changes. -/
theorem zoom_scales_selected_image_only (s : CanvasState) (i : Nat) (img : PlacedImage)
    (h : s.images.get? i = some img) :
    (zoomInImage s).images.length = s.images.length ∧
    (zoomOutImage s).images.length = s.images.length ∧
    (s.selectedImage = some img.id →
      (∃ zi, (zoomInImage s).images.get? i = some zi ∧
        zi.width = img.width * (6 / 5) ∧ zi.height = img.height * (6 / 5) ∧
        zi.x = img.x ∧ zi.y = img.y ∧ zi.id = img.id ∧ zi.gridPos = img.gridPos ∧
        zi.srcWidth = img.srcWidth ∧ zi.srcHeight = img.srcHeight) ∧
      (∃ zo, (zoomOutImage s).images.get? i = some zo ∧
        zo.width = img.width * (4 / 5) ∧ zo.height = img.height * (4 / 5) ∧
        zo.x = img.x ∧ zo.y = img.y ∧ zo.id = img.id ∧ zo.gridPos = img.gridPos ∧
        zo.srcWidth = img.srcWidth ∧ zo.srcHeight = img.srcHeight)) ∧
    (s.selectedImage ≠ some img.id →
      (zoomInImage s).images.get? i = some img ∧
      (zoomOutImage s).images.get? i = some img) := by
  have h' : s.images[i]? = some img := by rw [List.get?_eq_getElem?] at h; exact h
  have hin : (zoomInImage s).images.get? i
      = some (if some img.id = s.selectedImage then
          { img with width := img.width * (6 / 5), height := img.height * (6 / 5) }
        else img) := by
    show (s.images.map _).get? i = _
    rw [List.get?_eq_getElem?, List.getElem?_map, h']
    rfl
  have hout : (zoomOutImage s).images.get? i
      = some (if some img.id = s.selectedImage then
          { img with width := img.width * (4 / 5), height := img.height * (4 / 5) }
        else img) := by
    show (s.images.map _).get? i = _
    rw [List.get?_eq_getElem?, List.getElem?_map, h']
    rfl
  refine ⟨by simp [zoomInImage], by simp [zoomOutImage], ?_, ?_⟩
  · intro hsel
    rw [if_pos hsel.symm] at hin
    rw [if_pos hsel.symm] at hout
    exact ⟨⟨_, hin, rfl, rfl, rfl, rfl, rfl, rfl, rfl, rfl⟩,
           ⟨_, hout, rfl, rfl, rfl, rfl, rfl, rfl, rfl, rfl⟩⟩
  · intro hne
    rw [if_neg (fun hc => hne hc.symm)] at hin
    rw [if_neg (fun hc => hne hc.symm)] at hout
    exact ⟨hin, hout⟩

/-- A second concrete placed image, not selected in `zoomDemoState`. -/
def demoImageB : PlacedImage :=
  { id := 1, srcWidth := 20, srcHeight := 10, x := 5, y := 6,
    width := 50, height := 25, gridPos := { row := 0, col := 1 } }

/-- A state with two images where image id 0 is selected. -/
def zoomDemoState : CanvasState :=
  { initialState with images := [demoImage, demoImageB], selectedImage := some 0 }

/-- Witness for `zoom_scales_selected_image_only`: in `zoomDemoState`,
the selected image (index 0) is rescaled and the unselected one
(index 1) is untouched. -/
theorem zoom_scales_selected_image_only_witness :
    zoomDemoState.images.get? 0 = some demoImage ∧
    zoomDemoState.images.get? 1 = some demoImageB ∧
    zoomDemoState.selectedImage = some demoImage.id ∧
    zoomDemoState.selectedImage ≠ some demoImageB.id ∧
    (zoomInImage zoomDemoState).images.length = zoomDemoState.images.length ∧
    (∃ zi, (zoomInImage zoomDemoState).images.get? 0 = some zi ∧
      zi.width = demoImage.width * (6 / 5) ∧ zi.height = demoImage.height * (6 / 5) ∧
      zi.x = demoImage.x ∧ zi.y = demoImage.y ∧ zi.id = demoImage.id ∧
      zi.gridPos = demoImage.gridPos ∧
      zi.srcWidth = demoImage.srcWidth ∧ zi.srcHeight = demoImage.srcHeight) ∧
    (zoomInImage zoomDemoState).images.get? 1 = some demoImageB ∧
    (zoomOutImage zoomDemoState).images.get? 1 = some demoImageB :=
  ⟨rfl, rfl, rfl, by decide, (zoom_scales_selected_image_only zoomDemoState 0 demoImage rfl).1,
   (((zoom_scales_selected_image_only zoomDemoState 0 demoImage rfl).2.2.1) rfl).1,
   (((zoom_scales_selected_image_only zoomDemoState 1 demoImageB rfl).2.2.2) (by decide)).1,
   (((zoom_scales_selected_image_only zoomDemoState 1 demoImageB rfl).2.2.2) (by decide)).2⟩

/-- Claim C8 (confirmed).  `addText` leaves the text list unchanged when
no image is selected (in particular an empty list stays empty); when a
selected image exists it appends exactly one text at
`(image.x + 10, image.y + 10)` with the placeholder string, width 100 and
rotation 0, its id being the current list length. -/
theorem addText_noop_or_appends_one (s : CanvasState) :
    (s.selectedImage = none → (addText s).texts = s.texts) ∧
    (∀ (sel : Nat) (img : PlacedImage), s.selectedImage = some sel →
      s.images.find? (fun i => i.id == sel) = some img →
      (addText s).texts = s.texts ++
        [{ id := s.texts.length, x := img.x + 10, y := img.y + 10,
           text := "Sample Text", width := 100, rotation := 0 }]) := by
  constructor
  · intro hnone
    simp [addText, hnone]
  · intro sel img hsel hfind
    simp [addText, hsel, hfind]

/-- Witness for `addText_noop_or_appends_one`: on the fresh state (no
selection, empty text list) nothing is added; on `freshIdState` (image id
0 selected, one text present) exactly the placeholder text is appended. -/
theorem addText_noop_or_appends_one_witness :
    initialState.selectedImage = none ∧
    initialState.texts = [] ∧
    (addText initialState).texts = initialState.texts ∧
    freshIdState.selectedImage = some 0 ∧
    freshIdState.images.find? (fun i => i.id == 0) = some demoImage ∧
    (addText freshIdState).texts = freshIdState.texts ++
      [{ id := freshIdState.texts.length, x := demoImage.x + 10, y := demoImage.y + 10,
         text := "Sample Text", width := 100, rotation := 0 }] :=
  ⟨rfl, rfl, (addText_noop_or_appends_one initialState).1 rfl, rfl, rfl,
   (addText_noop_or_appends_one freshIdState).2 0 demoImage rfl rfl⟩

/-- `addText` never touches either selection, in all three of its
branches. -/
lemma addText_selectedImage_eq (s : CanvasState) :
    (addText s).selectedImage = s.selectedImage := by
  unfold addText
  split
  · rfl
  · split <;> rfl

/-- `addText` leaves the text selection unchanged. -/
lemma addText_selectedText_eq (s : CanvasState) :
    (addText s).selectedText = s.selectedText := by
  unfold addText
  split
  · rfl
  · split <;> rfl

/-- Dragging an image changes neither selection. -/
lemma moveImage_selectedImage_eq (s : CanvasState) (i : Nat) (nx ny : ℚ) :
    (moveImage s i nx ny).selectedImage = s.selectedImage := by
  unfold moveImage
  split <;> rfl

/-- Dragging an image leaves the text selection unchanged. -/
lemma moveImage_selectedText_eq (s : CanvasState) (i : Nat) (nx ny : ℚ) :
    (moveImage s i nx ny).selectedText = s.selectedText := by
  unfold moveImage
  split <;> rfl

/-- Every event handler preserves mutual exclusion of the two
selections: handlers that set a selection clear the other one, and the
remaining handlers leave both untouched. -/
lemma step_preserves_atMostOneSelection (s : CanvasState) (e : Event)
    (h : atMostOneSelection s) : atMostOneSelection (step s e) := by
  cases e with
  | fileUpload dims iw ih => exact h
  | clickImage id => exact Or.inr rfl
  | clickText id => exact Or.inl rfl
  | imageDragEnd i nx ny =>
      rcases h with h | h
      · exact Or.inl ((moveImage_selectedImage_eq s i nx ny).trans h)
      · exact Or.inr ((moveImage_selectedText_eq s i nx ny).trans h)
  | textDragEnd id nx ny => exact h
  | textTransformEnd id nx ny rot w => exact h
  | textDblClick id t => exact h
  | menuDelete => exact Or.inl rfl
  | menuDeleteText => exact Or.inr rfl
  | menuZoomIn => exact h
  | menuZoomOut => exact h
  | menuAddText =>
      rcases h with h | h
      · exact Or.inl ((addText_selectedImage_eq s).trans h)
      · exact Or.inr ((addText_selectedText_eq s).trans h)
  | rightClick cx cy id kind =>
      cases kind with
      | image => exact Or.inr rfl
      | text => exact Or.inl rfl
  | stageClick => exact Or.inl rfl
  | printClick => exact Or.inl rfl
  | modeChange m => exact h
  | colsInput n => exact h
  | rowsInput n => exact h

/-- Mutual exclusion of the selections is preserved along any event
sequence. -/
lemma run_preserves_atMostOneSelection :
    ∀ (evs : List Event) (s : CanvasState),
      atMostOneSelection s → atMostOneSelection (run s evs)
  | [], _, h => h
  | e :: es, s, h =>
      run_preserves_atMostOneSelection es (step s e)
        (step_preserves_atMostOneSelection s e h)

/-- Claim C9 (confirmed).  In every state reachable from the initial
state, at most one of the two selections is set; selecting an image
clears the text selection, selecting a text clears the image selection,
and a click on empty canvas clears both selections and closes any open
context menu. -/
theorem selection_mutually_exclusive :
    (∀ evs : List Event, atMostOneSelection (run initialState evs)) ∧
    (∀ (s : CanvasState) (id : Nat),
      (handleSelectImage s id).selectedImage = some id ∧
      (handleSelectImage s id).selectedText = none) ∧
    (∀ (s : CanvasState) (id : Nat),
      (handleSelectText s id).selectedText = some id ∧
      (handleSelectText s id).selectedImage = none) ∧
    (∀ s : CanvasState,
      (handleStageClick s).selectedImage = none ∧
      (handleStageClick s).selectedText = none ∧
      (handleStageClick s).contextMenu = none) :=
  ⟨fun evs => run_preserves_atMostOneSelection evs initialState (Or.inl rfl),
   fun _ _ => ⟨rfl, rfl⟩, fun _ _ => ⟨rfl, rfl⟩, fun _ => ⟨rfl, rfl, rfl⟩⟩

end PrintingTools
